import Mathlib

/-
Verification of the order-total / coupon-discount / status-transition logic
of the kastoma e-commerce backend.

Money values are Python Decimal values; all arithmetic the code performs on
them (+, -, *, / by 100, min) is exact at the sizes allowed by the model
fields, so they are embedded as rationals.  Timestamps are embedded as
integers (only their ordering matters).  Optional model fields are Option
values; Python truthiness of an optional numeric field (None and 0 are both
falsy) is embedded explicitly where the source relies on it.
-/

namespace Kastoma

/-- Quantization to two decimal places with rounding mode ROUND_HALF_UP,
as performed by Decimal.quantize in the source: round to the nearest
multiple of 1/100, ties away from zero. -/
def quantize2 (q : ℚ) : ℚ :=
  if 0 ≤ q then (⌊q * 100 + 1/2⌋ : ℚ) / 100
  else -((⌊-q * 100 + 1/2⌋ : ℚ) / 100)

/-- Discount type choices of the Coupon model. -/
inductive DiscountType
  | percentage
  | fixed_amount
deriving DecidableEq, Repr

/-- Coupon model fields used by Coupon.is_valid and Coupon.calculate_discount
(src/orders/models.py).  Nullable fields are Option. -/
structure Coupon where
  discount_type : DiscountType
  discount_value : ℚ
  minimum_order_amount : Option ℚ
  maximum_discount_amount : Option ℚ
  usage_limit : Option Nat
  usage_count : Nat
  is_active : Bool
  valid_from : ℤ
  valid_until : Option ℤ
deriving DecidableEq, Repr

/-- Coupon.is_valid (src/orders/models.py lines 470-487).  The source reads
timezone.now so the current time is passed explicitly.  The usage-limit
check is guarded by Python truthiness of usage_limit: None and 0 both skip
the check. -/
def Coupon.is_valid (c : Coupon) (now : ℤ) : Bool :=
  if !c.is_active then false
  else if now < c.valid_from then false
  else if (match c.valid_until with
           | some vu => decide (vu < now)
           | none => false) then false
  else if (match c.usage_limit with
           | some ul => decide (ul ≠ 0) && decide (ul ≤ c.usage_count)
           | none => false) then false
  else true

/-- Coupon.calculate_discount (src/orders/models.py lines 489-505).  The
minimum_order_amount and maximum_discount_amount guards use Python
truthiness: None and 0.00 both skip the guard.  No rounding is performed. -/
def Coupon.calculate_discount (c : Coupon) (now : ℤ) (order_amount : ℚ) : ℚ :=
  if !(c.is_valid now) then 0
  else if (match c.minimum_order_amount with
           | some m => decide (m ≠ 0) && decide (order_amount < m)
           | none => false) then 0
  else
    let discount :=
      if c.discount_type = DiscountType.percentage then
        order_amount * (c.discount_value / 100)
      else
        c.discount_value
    let discount :=
      match c.maximum_discount_amount with
      | some m => if m ≠ 0 then min discount m else discount
      | none => discount
    min discount order_amount

/-- State-passing form of Coupon.is_valid: the method body contains no write
to any field, so the coupon after the call is the coupon before it. -/
def Coupon.is_validS (c : Coupon) (now : ℤ) : Bool × Coupon :=
  (c.is_valid now, c)

/-- State-passing form of Coupon.calculate_discount: the method body contains
no write to any field, so the coupon after the call is the coupon before it. -/
def Coupon.calculate_discountS (c : Coupon) (now : ℤ) (order_amount : ℚ) :
    ℚ × Coupon :=
  (c.calculate_discount now order_amount, c)

/-- calculate_tax (src/orders/utils.py lines 37-54): amount times rate/100,
quantized to two decimals with ROUND_HALF_UP. -/
def calculate_tax (amount tax_rate : ℚ) : ℚ :=
  quantize2 (amount * (tax_rate / 100))

/-- Lowercasing of a single character, as str.lower acts on the ASCII
range (shipping method names are ASCII). -/
def pyCharLower (c : Char) : Char :=
  if 65 ≤ c.toNat ∧ c.toNat ≤ 90 then Char.ofNat (c.toNat + 32) else c

/-- Python str.lower on ASCII strings. -/
def pyLower (s : String) : String := String.mk (s.data.map pyCharLower)

/-- Free shipping threshold constant of get_shipping_cost. -/
def FREE_SHIPPING_THRESHOLD : ℚ := 100

/-- Flat shipping rate table of get_shipping_cost. -/
def shipping_rates : List (String × ℚ) :=
  [("standard", 599/100), ("express", 1299/100),
   ("overnight", 2499/100), ("international", 1599/100)]

/-- get_shipping_cost (src/orders/utils.py lines 140-164): free above the
threshold (boundary inclusive), otherwise a table lookup on the lowercased
method name, defaulting to the standard rate. -/
def get_shipping_cost (subtotal : ℚ) (shipping_method : String) : ℚ :=
  if FREE_SHIPPING_THRESHOLD ≤ subtotal then 0
  else (shipping_rates.lookup (pyLower shipping_method)).getD (599/100)

/-- Order status choices. -/
inductive OrderStatus
  | pending
  | confirmed
  | processing
  | shipped
  | delivered
  | cancelled
  | refunded
deriving DecidableEq, Repr, Fintype

/-- Transition table of OrderStatusUpdateSerializer.validate_status
(src/orders/serializers.py lines 364-387). -/
def valid_transitions : OrderStatus → List OrderStatus
  | .pending => [.confirmed, .cancelled]
  | .confirmed => [.processing, .cancelled]
  | .processing => [.shipped, .cancelled]
  | .shipped => [.delivered]
  | .delivered => [.refunded]
  | .cancelled => []
  | .refunded => []

/-- Error value raised by validate_status (ValidationError naming the pair). -/
structure InvalidTransition where
  from_status : OrderStatus
  to_status : OrderStatus
deriving DecidableEq, Repr

/-- OrderStatusUpdateSerializer.validate_status: returns the requested status
when it is in the allowed list for the current status, otherwise raises a
validation error carrying the pair. -/
def validate_status (current_status value : OrderStatus) :
    Except InvalidTransition OrderStatus :=
  if value ∈ valid_transitions current_status then Except.ok value
  else Except.error ⟨current_status, value⟩

/-- Line item data the order-creation path derives from each entry of
items_data: the resolved unit price and the requested quantity. -/
structure LineItem where
  unit_price : ℚ
  quantity : Nat
deriving DecidableEq, Repr

/-- Money fields of an order produced by the creation path. -/
structure OrderTotals where
  subtotal : ℚ
  shipping_cost : ℚ
  tax_amount : ℚ
  discount_amount : ℚ
  total_amount : ℚ
deriving DecidableEq, Repr

/-- Subtotal accumulation of OrderCreateSerializer.create: each item
contributes total_price = unit_price * quantity. -/
def computeSubtotal (items : List LineItem) : ℚ :=
  (items.map (fun i => i.unit_price * (i.quantity : ℚ))).sum

/-- Money effect of OrderCreateSerializer.create (src/orders/serializers.py
lines 133-209).  The coupon argument is the result of the code lookup (none
when no code was given or the code did not resolve).  The serializer sets
only subtotal, discount_amount and total_amount; shipping_cost and
tax_amount keep the Order model defaults of 0.00 (create never calls
get_shipping_cost or calculate_tax).  When the computed discount is
positive the coupon usage_count is incremented once and saved; the second
component is the coupon state after the call. -/
def orderCreate (items : List LineItem) (coupon : Option Coupon) (now : ℤ) :
    OrderTotals × Option Coupon :=
  let subtotal := computeSubtotal items
  match coupon with
  | none =>
      ({ subtotal := subtotal, shipping_cost := 0, tax_amount := 0,
         discount_amount := 0,
         total_amount := subtotal + 0 + 0 - 0 }, none)
  | some c =>
      let discount := c.calculate_discount now subtotal
      if 0 < discount then
        ({ subtotal := subtotal, shipping_cost := 0, tax_amount := 0,
           discount_amount := discount,
           total_amount := subtotal + 0 + 0 - discount },
         some { c with usage_count := c.usage_count + 1 })
      else
        ({ subtotal := subtotal, shipping_cost := 0, tax_amount := 0,
           discount_amount := 0,
           total_amount := subtotal + 0 + 0 - 0 }, some c)

/-- Order.calculate_totals (src/orders/models.py lines 344-354): subtotal is
the sum of the stored total_price of the items; total_amount is
subtotal + shipping_cost + tax_amount - discount_amount.  Returns the pair
(subtotal, total_amount). -/
def calculate_totals (item_total_prices : List ℚ)
    (shipping_cost tax_amount discount_amount : ℚ) : ℚ × ℚ :=
  let subtotal := item_total_prices.sum
  (subtotal, subtotal + shipping_cost + tax_amount - discount_amount)

/-- Modelled from the spec: the assemble_totals orchestration of section 4.1.
No function of the source performs this orchestration (the creation path in
src/orders/serializers.py sets only subtotal, discount_amount and
total_amount); this definition follows the words of the spec so the source
path can be compared against it: subtotal, then discount against the
subtotal, then shipping against the subtotal via the rate table, then tax
against the subtotal, then total clamped at zero. -/
def spec_assemble_totals (items : List LineItem) (coupon : Option Coupon)
    (shipping_method : String) (tax_rate : ℚ) (now : ℤ) : OrderTotals :=
  let subtotal := computeSubtotal items
  let discount :=
    match coupon with
    | some c => c.calculate_discount now subtotal
    | none => 0
  let shipping := get_shipping_cost subtotal shipping_method
  let tax := calculate_tax subtotal tax_rate
  { subtotal := subtotal, shipping_cost := shipping, tax_amount := tax,
    discount_amount := discount,
    total_amount := max (subtotal + shipping - discount + tax) 0 }

/-- Modelled from the spec: the display/recalculation path (re-running the
totals calculation with no coupon-commit step; no such distinct path exists
in src/).  It reads the coupon only through Coupon.is_valid and
Coupon.calculate_discount, whose bodies contain no writes, so the coupon
state is returned unchanged. -/
def recalcTotals (items : List LineItem) (coupon : Option Coupon)
    (shipping_method : String) (tax_rate : ℚ) (now : ℤ) :
    OrderTotals × Option Coupon :=
  (spec_assemble_totals items coupon shipping_method tax_rate now, coupon)

/-- Amended per-step formulation of calculate_discount, following the words
of the spec with the two corrections the source forces: the minimum and
maximum caps apply only when the field is set to a nonzero value, and the
result is exact (the source performs no rounding). -/
def spec_calculate_discount (c : Coupon) (now : ℤ) (amt : ℚ) : ℚ :=
  if c.is_valid now = false then 0
  else if (match c.minimum_order_amount with
           | some m => decide (m ≠ 0) && decide (amt < m)
           | none => false) = true then 0
  else
    let raw : ℚ :=
      match c.discount_type with
      | .percentage => amt * c.discount_value / 100
      | .fixed_amount => c.discount_value
    let capped : ℚ :=
      match c.maximum_discount_amount with
      | some m => if m = 0 then raw else min raw m
      | none => raw
    min capped amt

/-- Allowed-transition relation exactly as the spec states the table. -/
def spec_allowed (cur req : OrderStatus) : Prop :=
  (cur = .pending ∧ (req = .confirmed ∨ req = .cancelled)) ∨
  (cur = .confirmed ∧ (req = .processing ∨ req = .cancelled)) ∨
  (cur = .processing ∧ (req = .shipped ∨ req = .cancelled)) ∨
  (cur = .shipped ∧ req = .delivered) ∨
  (cur = .delivered ∧ req = .refunded)

instance spec_allowed_dec (cur req : OrderStatus) :
    Decidable (spec_allowed cur req) := by
  unfold spec_allowed
  infer_instance

instance : DecidableEq (Except InvalidTransition OrderStatus)
  | .ok a, .ok b =>
      if h : a = b then .isTrue (by rw [h]) else .isFalse (by simp [h])
  | .ok _, .error _ => .isFalse (by simp)
  | .error _, .ok _ => .isFalse (by simp)
  | .error a, .error b =>
      if h : a = b then .isTrue (by rw [h]) else .isFalse (by simp [h])

/-- A valid 10-percent coupon with no caps, used as concrete test data. -/
def couponTenPct : Coupon :=
  { discount_type := .percentage, discount_value := 10,
    minimum_order_amount := none, maximum_discount_amount := none,
    usage_limit := none, usage_count := 0, is_active := true,
    valid_from := 0, valid_until := none }

/-- A valid 6.75-percent coupon with no caps, used as concrete test data. -/
def couponPct675 : Coupon :=
  { discount_type := .percentage, discount_value := 675/100,
    minimum_order_amount := none, maximum_discount_amount := none,
    usage_limit := none, usage_count := 0, is_active := true,
    valid_from := 0, valid_until := none }

/-- An otherwise-valid coupon whose usage_limit is set to 0 while its
usage_count is 3, used as concrete test data. -/
def couponZeroLimit : Coupon :=
  { discount_type := .percentage, discount_value := 10,
    minimum_order_amount := none, maximum_discount_amount := none,
    usage_limit := some 0, usage_count := 3, is_active := true,
    valid_from := 0, valid_until := none }

/-! Helper lemmas shared by the claim theorems. -/

lemma floor_half_near (x : ℚ) : |(⌊x + 1/2⌋ : ℚ) - x| ≤ 1/2 := by
  rw [abs_le]
  constructor
  · have h := Int.lt_floor_add_one (x + 1/2)
    linarith
  · have h := Int.floor_le (x + 1/2)
    linarith

lemma quantize2_near (q : ℚ) : |quantize2 q - q| ≤ 1/200 := by
  unfold quantize2
  split
  · have h := floor_half_near (q * 100)
    have h2 : (⌊q * 100 + 1/2⌋ : ℚ)/100 - q =
        ((⌊q * 100 + 1/2⌋ : ℚ) - q * 100)/100 := by ring
    rw [h2, abs_div, abs_of_pos (show (0:ℚ) < 100 by norm_num)]
    linarith
  · have h := floor_half_near (-q * 100)
    have h2 : -((⌊-q * 100 + 1/2⌋ : ℚ)/100) - q =
        -(((⌊-q * 100 + 1/2⌋ : ℚ) - (-q) * 100)/100) := by ring
    rw [h2, abs_neg, abs_div, abs_of_pos (show (0:ℚ) < 100 by norm_num)]
    linarith

lemma quantize2_den (q : ℚ) : ∃ n : ℤ, quantize2 q = (n : ℚ)/100 := by
  unfold quantize2
  split
  · exact ⟨⌊q * 100 + 1/2⌋, rfl⟩
  · exact ⟨-⌊-q * 100 + 1/2⌋, by push_cast; ring⟩

lemma calc_discount_le (c : Coupon) (now : ℤ) (amt : ℚ) (h : 0 ≤ amt) :
    c.calculate_discount now amt ≤ amt := by
  unfold Coupon.calculate_discount
  split
  · exact h
  · split
    · exact h
    · exact min_le_right _ _

lemma computeSubtotal_nonneg (items : List LineItem)
    (h : ∀ i ∈ items, 0 ≤ i.unit_price) : 0 ≤ computeSubtotal items := by
  unfold computeSubtotal
  refine List.sum_nonneg ?_
  intro x hx
  obtain ⟨i, hi, rfl⟩ := List.mem_map.mp hx
  exact mul_nonneg (h i hi) (by positivity)

lemma ship_free (s : ℚ) (m : String) (h : 100 ≤ s) : get_shipping_cost s m = 0 := by
  unfold get_shipping_cost FREE_SHIPPING_THRESHOLD
  rw [if_pos h]

lemma ship_standard (s : ℚ) (h : s < 100) :
    get_shipping_cost s "standard" = 599/100 := by
  unfold get_shipping_cost FREE_SHIPPING_THRESHOLD
  rw [if_neg (not_le.mpr h), show pyLower "standard" = "standard" from by decide]
  simp [shipping_rates, List.lookup]

lemma tax_50_825 : calculate_tax 50 (825/100) = 413/100 := by
  unfold calculate_tax
  rw [show (50:ℚ) * ((825:ℚ)/100/100) = 33/8 by norm_num]
  unfold quantize2
  rw [if_pos (by norm_num)]
  norm_num [Int.floor_eq_iff]

/-! Claim theorems. -/

/-- C4 counterexample: a coupon whose usage_limit is set (to 0) and whose
usage_count is at least that limit, for which is_valid nevertheless returns
true, so the claimed iff fails as stated at this input. -/
theorem is_valid_zero_usage_limit_counterexample :
    couponZeroLimit.is_valid 0 = true ∧
    couponZeroLimit.usage_limit = some 0 ∧
    couponZeroLimit.usage_limit.getD 0 ≤ couponZeroLimit.usage_count := by
  refine ⟨?_, rfl, by decide⟩
  decide

/-- C4 amended: coupon_is_valid(coupon, now) returns false iff is_active is
false, or now < valid_from, or valid_until is set and now > valid_until, or
usage_limit is set to a nonzero value and usage_count is at least
usage_limit; and the call leaves the coupon unchanged. -/
theorem is_valid_false_iff_amended (c : Coupon) (now : ℤ) :
    (c.is_valid now = false ↔
      (c.is_active = false ∨ now < c.valid_from ∨
       (∃ vu, c.valid_until = some vu ∧ vu < now) ∨
       (∃ ul, c.usage_limit = some ul ∧ ul ≠ 0 ∧ ul ≤ c.usage_count))) ∧
    (c.is_validS now).2 = c := by
  refine ⟨?_, rfl⟩
  obtain ⟨dt, dv, mn, mx, ul, uc, ia, vf, vu⟩ := c
  simp only [Coupon.is_valid]
  cases ia <;> cases vu <;> cases ul <;>
    simp +decide [Bool.if_false_left, Bool.if_true_left] <;>
    constructor <;> intro h <;> omega

/-- C10: zero values of the optional coupon fields behave as absent: a
usage_limit of 0 validates like no limit (concretely, a coupon with
usage_limit 0 and positive usage_count is still valid), a
maximum_discount_amount of 0 caps nothing, and a minimum_order_amount of 0
imposes no threshold. -/
theorem zero_optional_fields_behave_as_absent :
    (∀ (c : Coupon) (now : ℤ) (amt : ℚ),
      ({ c with usage_limit := some 0 } : Coupon).is_valid now =
        ({ c with usage_limit := none } : Coupon).is_valid now ∧
      ({ c with maximum_discount_amount := some 0 } : Coupon).calculate_discount
          now amt =
        ({ c with maximum_discount_amount := none } : Coupon).calculate_discount
          now amt ∧
      ({ c with minimum_order_amount := some 0 } : Coupon).calculate_discount
          now amt =
        ({ c with minimum_order_amount := none } : Coupon).calculate_discount
          now amt) ∧
    couponZeroLimit.is_valid 0 = true := by
  refine ⟨fun c now amt => ⟨?_, ?_, ?_⟩, by decide⟩
  · simp [Coupon.is_valid]
  · simp [Coupon.calculate_discount, Coupon.is_valid]
  · simp [Coupon.calculate_discount, Coupon.is_valid]

/-- C3 counterexample: a valid 6.75-percent coupon applied to 33.33 yields
the exact product 2.249775, not the half-up rounding 2.25 the claim states,
so the final rounding step does not exist in the source. -/
theorem calculate_discount_unrounded_counterexample :
    couponPct675.is_valid 0 = true ∧
    couponPct675.calculate_discount 0 (3333/100) = 2249775/1000000 ∧
    quantize2 (2249775/1000000) = 225/100 ∧
    couponPct675.calculate_discount 0 (3333/100) ≠ 225/100 := by
  have hval : couponPct675.calculate_discount 0 (3333/100) = 2249775/1000000 := by
    simp [Coupon.calculate_discount, Coupon.is_valid, couponPct675]
    rw [min_eq_left (by norm_num)]
    norm_num
  refine ⟨by decide, hval, ?_, ?_⟩
  · unfold quantize2
    rw [if_pos (by norm_num)]
    norm_num [Int.floor_eq_iff]
  · rw [hval]
    norm_num

/-- C3 amended: for every coupon and order amount, calculate_discount equals
the per-step spec formula in which the raw discount is the percentage or
fixed value, the maximum cap applies only when maximum_discount_amount is
set to a nonzero value, the minimum threshold applies only when
minimum_order_amount is set to a nonzero value, the result is capped at the
order amount, and no rounding is performed. -/
theorem calculate_discount_matches_amended_spec (c : Coupon) (now : ℤ)
    (amt : ℚ) : c.calculate_discount now amt = spec_calculate_discount c now amt := by
  unfold Coupon.calculate_discount spec_calculate_discount
  rcases hv : c.is_valid now <;> simp [hv]
  split
  · rfl
  · cases hdt : c.discount_type <;>
      cases hmx : c.maximum_discount_amount <;>
      simp [hdt, hmx, mul_div_assoc]

/-- C7: for every coupon (valid or not) and every nonnegative order amount,
the discount computed by calculate_discount never exceeds the order
amount. -/
theorem discount_never_exceeds_amount (c : Coupon) (now : ℤ) (amt : ℚ)
    (h : 0 ≤ amt) : c.calculate_discount now amt ≤ amt :=
  calc_discount_le c now amt h

/-- C7 witness at a concrete coupon and order amount. -/
theorem discount_never_exceeds_amount_witness :
    (0:ℚ) ≤ 50 ∧ couponTenPct.calculate_discount 0 50 ≤ 50 :=
  ⟨by norm_num, discount_never_exceeds_amount couponTenPct 0 50 (by norm_num)⟩

/-- C5: validate_status succeeds exactly on the pairs the transition table
allows, and otherwise fails with the InvalidTransition pair; in particular
shipped to delivered succeeds, shipped to cancelled fails, and the terminal
states cancelled and refunded reject every requested status. -/
theorem validate_status_matches_table :
    (∀ cur req,
      ((validate_status cur req = Except.ok req) ↔ spec_allowed cur req) ∧
      (validate_status cur req = Except.ok req ∨
       validate_status cur req = Except.error ⟨cur, req⟩)) ∧
    validate_status .shipped .delivered = Except.ok .delivered ∧
    validate_status .shipped .cancelled = Except.error ⟨.shipped, .cancelled⟩ ∧
    (∀ req, validate_status .cancelled req = Except.error ⟨.cancelled, req⟩ ∧
            validate_status .refunded req = Except.error ⟨.refunded, req⟩) := by
  decide

/-- C8: shipping is free at and above the 100.00 threshold; below it the
flat rate of the method applies, a method name outside the table (after the
lowercasing the source applies) falls back to the standard rate, and the
two boundary instances hold. -/
theorem get_shipping_cost_spec :
    (∀ (s : ℚ) (m : String), 100 ≤ s → get_shipping_cost s m = 0) ∧
    (∀ s : ℚ, s < 100 →
       get_shipping_cost s "standard" = 599/100 ∧
       get_shipping_cost s "express" = 1299/100 ∧
       get_shipping_cost s "overnight" = 2499/100 ∧
       get_shipping_cost s "international" = 1599/100) ∧
    (∀ (s : ℚ) (m : String), s < 100 →
       pyLower m ∉ ["standard", "express", "overnight", "international"] →
       get_shipping_cost s m = 599/100) ∧
    get_shipping_cost 100 "standard" = 0 ∧
    get_shipping_cost (9999/100) "standard" = 599/100 := by
  refine ⟨ship_free, ?_, ?_, ship_free 100 "standard" le_rfl,
    ship_standard (9999/100) (by norm_num)⟩
  · intro s h
    refine ⟨ship_standard s h, ?_, ?_, ?_⟩
    · unfold get_shipping_cost FREE_SHIPPING_THRESHOLD
      rw [if_neg (not_le.mpr h), show pyLower "express" = "express" from by decide]
      simp [shipping_rates, List.lookup]
    · unfold get_shipping_cost FREE_SHIPPING_THRESHOLD
      rw [if_neg (not_le.mpr h), show pyLower "overnight" = "overnight" from by decide]
      simp [shipping_rates, List.lookup]
    · unfold get_shipping_cost FREE_SHIPPING_THRESHOLD
      rw [if_neg (not_le.mpr h),
        show pyLower "international" = "international" from by decide]
      simp [shipping_rates, List.lookup]
  · intro s m h hm
    unfold get_shipping_cost FREE_SHIPPING_THRESHOLD
    rw [if_neg (not_le.mpr h)]
    simp only [List.mem_cons, not_or] at hm
    obtain ⟨h1, h2, h3, h4, -⟩ := hm
    have e1 : (pyLower m == "standard") = false := beq_eq_false_iff_ne.mpr h1
    have e2 : (pyLower m == "express") = false := beq_eq_false_iff_ne.mpr h2
    have e3 : (pyLower m == "overnight") = false := beq_eq_false_iff_ne.mpr h3
    have e4 : (pyLower m == "international") = false := beq_eq_false_iff_ne.mpr h4
    simp [shipping_rates, List.lookup, e1, e2, e3, e4]

/-- C8 witness at concrete subtotals and method names, including a method
name outside the table. -/
theorem get_shipping_cost_spec_witness :
    (100:ℚ) ≤ 150 ∧ get_shipping_cost 150 "overnight" = 0 ∧
    (50:ℚ) < 100 ∧ get_shipping_cost 50 "express" = 1299/100 ∧
    pyLower "CARRIER-PIGEON" ∉ ["standard", "express", "overnight", "international"] ∧
    get_shipping_cost 50 "CARRIER-PIGEON" = 599/100 :=
  ⟨by norm_num, get_shipping_cost_spec.1 150 "overnight" (by norm_num),
   by norm_num, (get_shipping_cost_spec.2.1 50 (by norm_num)).2.1,
   by decide,
   get_shipping_cost_spec.2.2.1 50 "CARRIER-PIGEON" (by norm_num) (by decide)⟩

/-- C9: calculate_tax returns amount times rate/100 rounded to a multiple of
0.01 at distance at most 0.005 (rounding to two decimal places); the
rounding is half-up (ties move away from zero, as the two tie instances
show), 33.33 at 6.75 percent gives 2.25, and a zero rate gives 0.00. -/
theorem calculate_tax_spec :
    (∀ a r : ℚ, ∃ n : ℤ, calculate_tax a r = (n : ℚ)/100 ∧
       |calculate_tax a r - a * (r/100)| ≤ 1/200) ∧
    calculate_tax (3333/100) (675/100) = 225/100 ∧
    (∀ a : ℚ, calculate_tax a 0 = 0) ∧
    calculate_tax (1/2) 5 = 3/100 ∧
    calculate_tax (-(1/2)) 5 = -(3/100) := by
  refine ⟨?_, ?_, ?_, ?_, ?_⟩
  · intro a r
    obtain ⟨n, hn⟩ := quantize2_den (a * (r/100))
    exact ⟨n, hn, quantize2_near _⟩
  · unfold calculate_tax
    rw [show (3333:ℚ)/100 * ((675:ℚ)/100/100) = 2249775/1000000 by norm_num]
    unfold quantize2
    rw [if_pos (by norm_num)]
    norm_num [Int.floor_eq_iff]
  · intro a
    unfold calculate_tax
    rw [show a * ((0:ℚ)/100) = 0 by ring]
    unfold quantize2
    rw [if_pos le_rfl]
    norm_num [Int.floor_eq_iff]
  · unfold calculate_tax
    rw [show (1:ℚ)/2 * ((5:ℚ)/100) = 1/40 by norm_num]
    unfold quantize2
    rw [if_pos (by norm_num)]
    norm_num [Int.floor_eq_iff]
  · unfold calculate_tax
    rw [show -((1:ℚ)/2) * ((5:ℚ)/100) = -(1/40) by norm_num]
    unfold quantize2
    rw [if_neg (by norm_num)]
    norm_num [Int.floor_eq_iff]

/-- C1 counterexample: on line items [(25.00, 2)], no coupon, method
standard, tax rate 8.25, the creation path of the source produces subtotal
50.00 with shipping, tax and discount all 0.00 and total 50.00, while the
orchestration the claim describes would produce shipping 5.99, tax 4.13 and
total 60.12; the claimed totals differ from the ones the code computes. -/
theorem create_scenario_counterexample :
    (orderCreate [⟨25, 2⟩] none 0).1 =
      { subtotal := 50, shipping_cost := 0, tax_amount := 0,
        discount_amount := 0, total_amount := 50 } ∧
    spec_assemble_totals [⟨25, 2⟩] none "standard" (825/100) 0 =
      { subtotal := 50, shipping_cost := 599/100, tax_amount := 413/100,
        discount_amount := 0, total_amount := 6012/100 } ∧
    (orderCreate [⟨25, 2⟩] none 0).1.total_amount ≠
      (spec_assemble_totals [⟨25, 2⟩] none "standard" (825/100) 0).total_amount ∧
    (orderCreate [⟨25, 2⟩] none 0).1.shipping_cost ≠ 599/100 ∧
    (orderCreate [⟨25, 2⟩] none 0).1.tax_amount ≠ 413/100 := by
  have hsub : computeSubtotal [⟨25, 2⟩] = 50 := by
    simp [computeSubtotal]
    norm_num
  have hcode : (orderCreate [⟨25, 2⟩] none 0).1 =
      { subtotal := 50, shipping_cost := 0, tax_amount := 0,
        discount_amount := 0, total_amount := 50 } := by
    simp [orderCreate, hsub]
  have hspec : spec_assemble_totals [⟨25, 2⟩] none "standard" (825/100) 0 =
      { subtotal := 50, shipping_cost := 599/100, tax_amount := 413/100,
        discount_amount := 0, total_amount := 6012/100 } := by
    simp [spec_assemble_totals, hsub, ship_standard 50 (by norm_num), tax_50_825]
    rw [max_eq_left (by norm_num)]
    norm_num
  refine ⟨hcode, hspec, ?_, ?_, ?_⟩ <;> rw [hcode]
  · rw [hspec]
    norm_num
  · norm_num
  · norm_num

/-- C1 amended: the order-creation path of the source computes the subtotal
from the line items and the coupon discount against the subtotal, leaves
shipping_cost and tax_amount at the Order model defaults of 0.00 (it never
calls get_shipping_cost or calculate_tax), and sets total_amount to
subtotal + shipping_cost + tax_amount - discount_amount with no clamping;
on the scenario line items [(25.00, 2)] with no coupon it produces subtotal
50.00, shipping 0.00, tax 0.00, discount 0.00, total 50.00. -/
theorem orderCreate_money_fields :
    (∀ (items : List LineItem) (coupon : Option Coupon) (now : ℤ),
       (orderCreate items coupon now).1.shipping_cost = 0 ∧
       (orderCreate items coupon now).1.tax_amount = 0 ∧
       (orderCreate items coupon now).1.subtotal = computeSubtotal items ∧
       (orderCreate items coupon now).1.total_amount =
         (orderCreate items coupon now).1.subtotal +
         (orderCreate items coupon now).1.shipping_cost +
         (orderCreate items coupon now).1.tax_amount -
         (orderCreate items coupon now).1.discount_amount) ∧
    (orderCreate [⟨25, 2⟩] none 0).1 =
      { subtotal := 50, shipping_cost := 0, tax_amount := 0,
        discount_amount := 0, total_amount := 50 } := by
  constructor
  · intro items coupon now
    rcases coupon with _ | c
    · simp [orderCreate]
    · by_cases h : 0 < c.calculate_discount now (computeSubtotal items) <;>
        simp [orderCreate, h]
  · have hsub : computeSubtotal [⟨25, 2⟩] = 50 := by
      simp [computeSubtotal]
      norm_num
    simp [orderCreate, hsub]

/-- C2: creating an order with a coupon whose discount applies increments
the usage_count of that coupon by exactly one and never by more; the pure
display path (is_valid and calculate_discount, and the recalculation built
from them) returns the coupon unchanged, and re-running the recalculation
on its own output state yields identical totals. -/
theorem coupon_commit_once_display_pure :
    ∀ (items : List LineItem) (c : Coupon) (now : ℤ) (m : String) (r : ℚ),
      (0 < (orderCreate items (some c) now).1.discount_amount →
        (orderCreate items (some c) now).2 =
          some { c with usage_count := c.usage_count + 1 }) ∧
      (¬ 0 < (orderCreate items (some c) now).1.discount_amount →
        (orderCreate items (some c) now).2 = some c) ∧
      (∀ u, (orderCreate items (some c) now).2 = some u →
        u.usage_count ≤ c.usage_count + 1) ∧
      (recalcTotals items (some c) m r now).2 = some c ∧
      recalcTotals items ((recalcTotals items (some c) m r now).2) m r now =
        recalcTotals items (some c) m r now ∧
      (∀ amt, (c.calculate_discountS now amt).2 = c ∧ (c.is_validS now).2 = c) := by
  intro items c now m r
  by_cases h : 0 < c.calculate_discount now (computeSubtotal items)
  · refine ⟨fun _ => ?_, fun hneg => absurd ?_ hneg, fun u hu => ?_, rfl, rfl,
      fun amt => ⟨rfl, rfl⟩⟩
    · simp [orderCreate, h]
    · simp [orderCreate, h]
    · simp [orderCreate, h] at hu
      rw [← hu]
  · refine ⟨fun hpos => absurd hpos ?_, fun _ => ?_, fun u hu => ?_, rfl, rfl,
      fun amt => ⟨rfl, rfl⟩⟩
    · simp [orderCreate, h]
    · simp [orderCreate, h]
    · simp [orderCreate, h] at hu
      rw [← hu]
      simp

/-- C2 witness: at a concrete order and coupon the commit path increments
usage_count from 0 to 1 and the display path returns the coupon unchanged. -/
theorem coupon_commit_once_display_pure_witness :
    (orderCreate [⟨25, 2⟩] (some couponTenPct) 0).2 =
      some { couponTenPct with usage_count := 1 } ∧
    (recalcTotals [⟨25, 2⟩] (some couponTenPct) "standard" (825/100) 0).2 =
      some couponTenPct := by
  have h := coupon_commit_once_display_pure [⟨25, 2⟩] couponTenPct 0 "standard"
    (825/100)
  have hpos : 0 < (orderCreate [⟨25, 2⟩] (some couponTenPct) 0).1.discount_amount := by
    simp [orderCreate, computeSubtotal, Coupon.calculate_discount, Coupon.is_valid,
      couponTenPct]
  refine ⟨?_, h.2.2.2.1⟩
  rw [h.1 hpos]
  rfl

/-- C6: the totals computation satisfies
total = subtotal + shipping + tax - discount, and the total is nonnegative,
both for Order.calculate_totals under the stated side conditions and for
the creation path given nonnegative unit prices. -/
theorem order_totals_invariant :
    (∀ (prices : List ℚ) (s t d : ℚ),
      (∀ p ∈ prices, 0 ≤ p) → 0 ≤ s → 0 ≤ t → 0 ≤ d → d ≤ prices.sum →
        (calculate_totals prices s t d).2 =
          (calculate_totals prices s t d).1 + s + t - d ∧
        0 ≤ (calculate_totals prices s t d).2) ∧
    (∀ (items : List LineItem) (coupon : Option Coupon) (now : ℤ),
      (∀ i ∈ items, 0 ≤ i.unit_price) →
        (orderCreate items coupon now).1.total_amount =
          (orderCreate items coupon now).1.subtotal +
          (orderCreate items coupon now).1.shipping_cost +
          (orderCreate items coupon now).1.tax_amount -
          (orderCreate items coupon now).1.discount_amount ∧
        0 ≤ (orderCreate items coupon now).1.total_amount) := by
  constructor
  · intro prices s t d hp hs ht hd hds
    have hsum : 0 ≤ prices.sum := List.sum_nonneg hp
    constructor
    · simp [calculate_totals]
    · simp [calculate_totals]
      linarith
  · intro items coupon now hp
    have hsub : 0 ≤ computeSubtotal items := computeSubtotal_nonneg items hp
    rcases coupon with _ | c
    · constructor
      · simp [orderCreate]
      · simp [orderCreate]
        linarith
    · by_cases h : 0 < c.calculate_discount now (computeSubtotal items)
      · have hle := calc_discount_le c now (computeSubtotal items) hsub
        constructor
        · simp [orderCreate, h]
        · simp [orderCreate, h]
          linarith
      · constructor
        · simp [orderCreate, h]
        · simp [orderCreate, h]
          linarith

/-- C6 witness at concrete items, shipping, tax and discount values. -/
theorem order_totals_invariant_witness :
    (calculate_totals [(10:ℚ), 20] 5 3 2).2 =
      (calculate_totals [(10:ℚ), 20] 5 3 2).1 + 5 + 3 - 2 ∧
    0 ≤ (calculate_totals [(10:ℚ), 20] 5 3 2).2 ∧
    0 ≤ (orderCreate [⟨25, 2⟩] (some couponTenPct) 0).1.total_amount := by
  have h1 := order_totals_invariant.1 [(10:ℚ), 20] 5 3 2
    (by intro p hp
        simp only [List.mem_cons, List.not_mem_nil, or_false] at hp
        rcases hp with rfl | rfl <;> norm_num)
    (by norm_num) (by norm_num) (by norm_num) (by norm_num [List.sum_cons])
  have h2 := order_totals_invariant.2 [⟨25, 2⟩] (some couponTenPct) 0
    (by intro i hi
        simp only [List.mem_cons, List.not_mem_nil, or_false] at hi
        subst hi
        exact (by norm_num : (0:ℚ) ≤ 25))
  exact ⟨h1.1, h1.2, h2.2⟩

end Kastoma
